import Mathlib

set_option maxRecDepth 1000000

/-!
Shallow embedding of the EV charging-cost calculator (src/app/calculator.py).

Modelling conventions, applied uniformly:
* Python floats are modelled as exact rationals (ℚ); Python `round(x, n)` is
  modelled as floor-based rounding to n decimal places (`round2`, `round4`);
  the tie-breaking behaviour of Python's banker's rounding is never exercised
  by the theorems below.
* A Python function that can raise an uncaught exception (TypeError on
  `state in -1`, IndexError on `cc[hour]`) is modelled with `Except Unit`,
  where `.error ()` is the uncaught exception; the deliberate `-1` sentinel
  returns of the source are ordinary `.ok (-1)` values, exactly as the source
  keeps them apart (an exception aborts the caller, a `-1` flows on).
* The three remote providers (location, weather/solar, public holidays) and
  the `data/termdates.json` file are external inputs; they are gathered in an
  `Env` record and every embedded function is parametric in it.
  `datetime.datetime.now().date()` is the `today` field of `Env`.
* Dates are structured `Date` records; the source's string juggling between
  the `dd/mm/yyyy` and `yyyy-mm-dd` formats (`process_date`, the format
  sniffing in `get_next_date`) is pure re-formatting of the same value and is
  not represented.  Weekday numbering follows Python: Monday = 0 … Sunday = 6.
-/

/-- Calendar date, day/month/year as in the `dd/mm/yyyy` strings of the app. -/
structure Date where
  day : ℕ
  month : ℕ
  year : ℕ
  deriving DecidableEq, Repr

/-- Leap-year test of the Gregorian calendar (as in Python's datetime). -/
def isLeapYear (y : ℕ) : Bool :=
  y % 4 == 0 && (y % 100 != 0 || y % 400 == 0)

/-- Days in a month (Gregorian, as in Python's datetime). -/
def daysInMonth (y m : ℕ) : ℕ :=
  if m = 2 then (if isLeapYear y then 29 else 28)
  else if m = 4 ∨ m = 6 ∨ m = 9 ∨ m = 11 then 30
  else 31

/-- Days strictly before month `m` in year `y`. -/
def daysBeforeMonth (y m : ℕ) : ℕ :=
  let base :=
    match m with
    | 1 => 0 | 2 => 31 | 3 => 59 | 4 => 90 | 5 => 120 | 6 => 151
    | 7 => 181 | 8 => 212 | 9 => 243 | 10 => 273 | 11 => 304 | _ => 334
  if 2 < m ∧ isLeapYear y then base + 1 else base

/-- Rata-die day number (0001-01-01 has number 1), used to compare and to
advance dates just as Python's `datetime` ordinal does. -/
def rdN (d : Date) : ℕ :=
  let y := d.year - 1
  365 * y + y / 4 - y / 100 + y / 400 + daysBeforeMonth d.year d.month + d.day

/-- Rata-die day number as an integer, for comparisons involving `- 1 day`. -/
def rd (d : Date) : ℤ := (rdN d : ℤ)

/-- Python `datetime.weekday()`: Monday = 0 … Sunday = 6. -/
def weekdayOf (d : Date) : ℕ := (rdN d + 6) % 7

/-- Successor calendar date; embeds `get_next_date` (calculator.py:323),
which parses the date, adds `timedelta(days=1)` and re-formats it. -/
def nextDate (d : Date) : Date :=
  if d.day < daysInMonth d.year d.month then ⟨d.day + 1, d.month, d.year⟩
  else if d.month < 12 then ⟨1, d.month + 1, d.year⟩
  else ⟨1, 1, d.year + 1⟩

/-- A day/month/year triple that denotes a real calendar date. -/
def ValidDate (d : Date) : Prop :=
  1 ≤ d.month ∧ d.month ≤ 12 ∧ 1 ≤ d.day ∧ d.day ≤ daysInMonth d.year d.month

instance : DecidablePred ValidDate := fun d => by unfold ValidDate; infer_instance

/-- Australian jurisdictions distinguished by the postcode dispatch of
`get_date_surcharge` (calculator.py:204-219). -/
inductive AuState where
  | nsw | act | vic | qld | sa | wa | tas | nt
  deriving DecidableEq, Repr

/-- The lowercase state string the source compares against the holiday
registry's jurisdiction column. -/
def stateStr : AuState → String
  | .nsw => "nsw" | .act => "act" | .vic => "vic" | .qld => "qld"
  | .sa => "sa" | .wa => "wa" | .tas => "tas" | .nt => "nt"

/-- Postcode → jurisdiction dispatch of `get_date_surcharge`
(calculator.py:204-222); `none` is the InvalidInputException path. -/
def jurisdictionOf (code : ℤ) : Option AuState :=
  if 2000 ≤ code ∧ code ≤ 2599 ∨ 2619 ≤ code ∧ code ≤ 2899 ∨ 2921 ≤ code ∧ code ≤ 2999 then some .nsw
  else if 2600 ≤ code ∧ code ≤ 2618 ∨ 2900 ≤ code ∧ code ≤ 2920 then some .act
  else if 3000 ≤ code ∧ code ≤ 3999 then some .vic
  else if 4000 ≤ code ∧ code ≤ 4999 then some .qld
  else if 5000 ≤ code ∧ code ≤ 5799 then some .sa
  else if 6000 ≤ code ∧ code ≤ 6797 then some .wa
  else if 7000 ≤ code ∧ code ≤ 7799 then some .tas
  else if 800 ≤ code ∧ code ≤ 899 then some .nt
  else none

/-- Time of day as it appears in the weather data (hh:mm:ss). -/
structure Tod where
  h : ℕ
  m : ℕ
  s : ℕ
  deriving DecidableEq, Repr

/-- One record of `hourlyWeatherHistory` in the weather API payload. -/
structure HourRec where
  hour : ℕ
  cloudCoverPct : ℚ
  deriving DecidableEq, Repr

/-- The fields of the weather API payload the calculator reads
(`get_date_solar_data`, calculator.py:432-455). -/
structure SolarData where
  sunrise : Tod
  sunset : Tod
  sunHours : ℚ
  hourly : List HourRec
  deriving DecidableEq, Repr

/-- One record of the location API payload (`get_location_id`). -/
structure LocRec where
  name : String
  id : String
  deriving DecidableEq, Repr

/-- External world of the calculator: the school-term data file
(data/termdates.json, per-state list of term date ranges), the public-holiday
registry (`none` models a non-ok HTTP response), the location API (per
postcode), the weather API (per location id and date), and the current date
`datetime.datetime.now().date()`.  A holiday record is a (yyyymmdd-key,
jurisdiction-string) pair, matching the columns the source reads. -/
structure Env where
  termDates : AuState → List (Date × Date)
  holidayRecords : Option (List (ℕ × String))
  locationApi : ℤ → Option (List LocRec)
  weatherApi : String → Date → Option SolarData
  today : Date

/-- Numeric key `yyyymmdd` the source builds from a `dd/mm/yyyy` string to
match the registry's Date column (`get_date_data`, calculator.py:311-313). -/
def dateKey (d : Date) : ℕ := d.year * 10000 + d.month * 100 + d.day

/-- Rounding to 2 decimal places, modelling Python's `round(x, 2)`. -/
def round2 (x : ℚ) : ℚ := (⌊x * 100 + 1/2⌋ : ℚ) / 100

/-- Rounding to 4 decimal places, modelling Python's `round(x, 4)`. -/
def round4 (x : ℚ) : ℚ := (⌊x * 10000 + 1/2⌋ : ℚ) / 10000

/-- Python `int(x)`: truncation toward zero. -/
def pyInt (x : ℚ) : ℤ := if x < 0 then -⌊-x⌋ else ⌊x⌋

/-- Embeds `get_power` (calculator.py:80-102): charger configuration →
(power_kW, price_cents_per_kWh). -/
def get_power (cfg : ℤ) : ℚ × ℚ :=
  if cfg = 1 then (2, 5)
  else if cfg = 2 then (36/10, 75/10)
  else if cfg = 3 then (72/10, 10)
  else if cfg = 4 then (11, 125/10)
  else if cfg = 5 then (22, 15)
  else if cfg = 6 then (36, 20)
  else if cfg = 7 then (90, 30)
  else (350, 50)

/-- Embeds `time_calculation` (calculator.py:174-190). -/
def time_calculation (initial_state final_state capacity power : ℚ) : ℚ :=
  round2 ((final_state - initial_state) / 100 * capacity / power * 60)

/-- Embeds `get_minute_from_start_time` (calculator.py:375-384). -/
def get_minute_from_start_time (hh mm : ℕ) : ℕ := hh * 60 + mm

/-- Embeds `convert_time_to_minutes_passed` (calculator.py:386-395); the
seconds field is dropped, as in the source. -/
def convert_time_to_minutes_passed (t : Tod) : ℕ := t.h * 60 + t.m

/-- Embeds `is_peak` (calculator.py:397-403). -/
def isPeak (minute : ℕ) : Bool := decide (360 ≤ minute) && decide (minute < 1080)

/-- Embeds `is_date_weekday` (calculator.py:239-248). -/
def is_date_weekday (d : Date) : Bool := decide (weekdayOf d < 5)

/-- Embeds `is_date_in_school_term` (calculator.py:250-281).  The term date
ranges live in data/termdates.json, which is not part of src/; they enter
through `Env.termDates` and the source's range scan is kept: the date is in
term iff it lies inside one of the jurisdiction's (start, end) ranges. -/
def is_date_in_school_term (env : Env) (d : Date) (st : AuState) : Bool :=
  (env.termDates st).any fun p => decide (rdN p.1 ≤ rdN d) && decide (rdN d ≤ rdN p.2)

/-- Jurisdictions the registry payload lists for a given date — the loop body
of `get_date_data` (calculator.py:315-321). -/
def holidayStates (recs : List (ℕ × String)) (d : Date) : List String :=
  (recs.filter fun r => r.1 = dateKey d).map Prod.snd

/-- Embeds `get_date_data` (calculator.py:295-321): `none` models its `-1`
return on a failed registry response. -/
def get_date_data (env : Env) (d : Date) : Option (List String) :=
  env.holidayRecords.map (holidayStates · d)

/-- Embeds `get_date_surcharge` (calculator.py:192-237).  `.ok (-1)` is the
invalid-postcode sentinel.  When `get_date_data` has returned `-1`, the
source evaluates `state in -1`, which raises TypeError; that uncaught
exception is `.error ()`. -/
def get_date_surcharge (env : Env) (d : Date) (code : ℤ) : Except Unit ℚ :=
  match jurisdictionOf code with
  | none => .ok (-1)
  | some st =>
    if !(is_date_in_school_term env d st) || is_date_weekday d then .ok (11/10)
    else
      match get_date_data env d with
      | none => .error ()
      | some states_list =>
        if stateStr st ∈ states_list then .ok (11/10) else .ok 1

/-- Embeds `get_reference_date` (calculator.py:343-373); `today` is
`datetime.datetime.now().date()`.  The `except ValueError` branch fires
exactly when `replace(year=2021)` is given Feb 29. -/
def get_reference_date (today : Date) (d : Date) : Date :=
  if d.year = 2021 ∧ rd today - 1 ≤ rd d then ⟨d.day, d.month, 2020⟩
  else if d.month = 2 ∧ d.day = 29 then ⟨28, 2, 2021⟩
  else if rd today - 1 ≤ rd ⟨d.day, d.month, 2021⟩ then ⟨d.day, d.month, 2020⟩
  else ⟨d.day, d.month, 2021⟩

/-- Embeds `get_preceding_dates_for_average` (calculator.py:592-611). -/
def get_preceding_dates_for_average (d : Date) : List Date :=
  [d, ⟨d.day, d.month, d.year - 1⟩, ⟨d.day, d.month, d.year - 2⟩]

/-- Embeds `get_location_id` (calculator.py:498-514): `none` models its `-1`
return (failed response, or no record whose name matches the upper-cased
suburb). -/
def get_location_id (env : Env) (code : ℤ) (suburb : String) : Option String :=
  match env.locationApi code with
  | none => none
  | some ds =>
    match ds.find? fun r => r.name = suburb.toUpper with
    | some r => some r.id
    | none => none

/-- Embeds `get_date_daylight_hours` (calculator.py:457-481): the difference
sunset − sunrise rendered as H:MM:SS and read back as `H*60 + MM`, i.e. the
whole minutes of the difference.  The source would crash on a sunset before
sunrise (the string starts with a day count); environments used here always
satisfy sunrise ≤ sunset, so the ℕ truncation is never exercised. -/
def get_date_daylight_hours (sunrise sunset : Tod) : ℕ :=
  ((sunset.h * 3600 + sunset.m * 60 + sunset.s) - (sunrise.h * 3600 + sunrise.m * 60 + sunrise.s)) / 60

/-- Stable-enough insertion into an hour-sorted list (the environments used
below carry distinct hours, where any sort agrees with Python's). -/
def insertByHour (r : HourRec) : List HourRec → List HourRec
  | [] => [r]
  | x :: xs => if r.hour < x.hour then r :: x :: xs else x :: insertByHour r xs

/-- Sort of `hourlyWeatherHistory` by hour (`hourlyWeather.sort`). -/
def sortByHour : List HourRec → List HourRec
  | [] => []
  | x :: xs => insertByHour x (sortByHour xs)

/-- Cloud-cover list `cc` built at calculator.py:668-671: sort the hourly
records by hour and keep the cloudCoverPct column. -/
def ccOf (sd : SolarData) : List ℚ := (sortByHour sd.hourly).map HourRec.cloudCoverPct

/-! ## Billing loop (`cost_calculation`, calculator.py:104-172) -/

/-- Loop state of `cost_calculation`: the current minute of day, current
date, that date's surcharge factor, the variables `cost` and `cost_val`, and
the accumulator `final_cost`. -/
structure CostSt where
  minute : ℕ
  date : Date
  surch : ℚ
  cost : ℚ
  costVal : ℚ
  acc : ℚ

/-- Day rollover at the top of the billing loop (calculator.py:142-145):
at minute 1440 advance the date, reset to minute 1 and re-derive the
surcharge (whose registry failure, a TypeError, propagates). -/
def rolloverCost (env : Env) (code : ℤ) (s : CostSt) : Except Unit CostSt :=
  if s.minute = 1440 then
    match get_date_surcharge env (nextDate s.date) code with
    | .error e => .error e
    | .ok sf => .ok { s with minute := 1, date := nextDate s.date, surch := sf }
  else .ok s

/-- Body of the `while count <= time_required` loop of `cost_calculation`
(calculator.py:139-171), fuel = remaining iterations.  `pm` is the constant
`base_price / (time_required + 1) / 100` the source recomputes at each
peak/off-peak transition. -/
def costLoop (env : Env) (code : ℤ) (initial_state final_state capacity pm : ℚ) :
    ℕ → CostSt → Except Unit ℚ
  | 0, s => .ok (round2 s.acc)
  | fuel + 1, s =>
    match rolloverCost env code s with
    | .error e => .error e
    | .ok s1 =>
      let flag : Bool := isPeak s1.minute
      let cv1 : ℚ := if flag then s1.costVal else s1.cost / 2
      let acc1 : ℚ := s1.acc + (final_state - initial_state) / 100 * capacity * cv1 * s1.surch
      let m2 : ℕ := s1.minute + 1
      let cc2 : ℚ × ℚ :=
        if isPeak m2 && !flag then (pm, pm)
        else if !(isPeak m2) && flag then (pm, pm / 2)
        else (s1.cost, cv1)
      costLoop env code initial_state final_state capacity pm fuel
        ⟨m2, s1.date, s1.surch, cc2.1, cc2.2, acc1⟩

/-- Embeds `cost_calculation` (calculator.py:104-172).  `.ok (-1)` is the
invalid-postcode sentinel (line 135); after the initial check the loop never
re-checks the surcharge it derives at a rollover, exactly as the source. -/
def cost_calculation (env : Env) (initial_state final_state capacity power base_price : ℚ)
    (startMin : ℕ) (start_date : Date) (code : ℤ) : Except Unit ℚ :=
  let T : ℤ := pyInt (time_calculation initial_state final_state capacity power)
  let pm : ℚ := base_price / ((T : ℚ) + 1) / 100
  match get_date_surcharge env start_date code with
  | .error e => .error e
  | .ok sf =>
    if sf = -1 then .ok (-1)
    else costLoop env code initial_state final_state capacity pm (T + 1).toNat
      ⟨startMin, start_date, sf, pm, pm, 0⟩

/-! ## Billing loop as the spec states it (§4.5 of the spec) -/

/-- Loop state of the spec-side billing fold: minute, date, surcharge and
accumulated cost — no price-recomputation flags. -/
structure BillSt where
  minute : ℕ
  date : Date
  surch : ℚ
  acc : ℚ

/-- Day rollover of the spec-side billing fold, identical protocol. -/
def rolloverBill (env : Env) (code : ℤ) (s : BillSt) : Except Unit BillSt :=
  if s.minute = 1440 then
    match get_date_surcharge env (nextDate s.date) code with
    | .error e => .error e
    | .ok sf => .ok { s with minute := 1, date := nextDate s.date, surch := sf }
  else .ok s

/-- Spec-side billing loop, following the spec's words: each minute
contributes energy-delta × price × surcharge where the price is `pm` inside
the peak window and `pm / 2` outside it, with no state carried between
minutes beyond the accumulator. -/
def billLoopSpec (env : Env) (code : ℤ) (initial_state final_state capacity pm : ℚ) :
    ℕ → BillSt → Except Unit ℚ
  | 0, s => .ok (round2 s.acc)
  | fuel + 1, s =>
    match rolloverBill env code s with
    | .error e => .error e
    | .ok s1 =>
      billLoopSpec env code initial_state final_state capacity pm fuel
        ⟨s1.minute + 1, s1.date, s1.surch,
          s1.acc + (final_state - initial_state) / 100 * capacity *
            (if isPeak s1.minute then pm else pm / 2) * s1.surch⟩

/-- Spec-side restatement of `cost_calculation` (spec §4.5): per-minute price
`base_price / (charging_minutes + 1) / 100`, halved outside the peak window,
never compounded. -/
def cost_calculation_spec (env : Env) (initial_state final_state capacity power base_price : ℚ)
    (startMin : ℕ) (start_date : Date) (code : ℤ) : Except Unit ℚ :=
  let T : ℤ := pyInt (time_calculation initial_state final_state capacity power)
  let pm : ℚ := base_price / ((T : ℚ) + 1) / 100
  match get_date_surcharge env start_date code with
  | .error e => .error e
  | .ok sf =>
    if sf = -1 then .ok (-1)
    else billLoopSpec env code initial_state final_state capacity pm (T + 1).toNat
      ⟨startMin, start_date, sf, 0⟩

/-! ## Solar savings (`calculate_solar_energy_savings_from_any_date`,
calculator.py:613-721) -/

/-- Outcome of one per-date solar simulation: `.crash` is an uncaught Python
exception (TypeError from a registry failure inside `get_date_surcharge`,
IndexError from `cc[hour]`), `.dataFail` is the `return -1` on a failed
weather lookup, `.val q` is a completed simulation. -/
inductive SimRes where
  | crash
  | dataFail
  | val (q : ℚ)
  deriving DecidableEq, Repr

/-- Loop state of the per-date solar simulation (calculator.py:644-718). -/
structure SolSt where
  date : Date
  surch : ℚ
  sunriseM : ℕ
  sunsetM : ℕ
  dl : ℕ
  si : ℚ
  cc : List ℚ
  minute : ℕ
  time : ℕ
  count : ℕ
  hoursInSun : ℕ
  daylightMin : ℕ
  savings : ℚ

/-- One non-rollover iteration of the solar loop (calculator.py:698-718):
count a daylight minute, and on a close-out (hour boundary in daylight,
sunset minute, or final minute in daylight) settle the window, reading
`cc[hour]` with `hour = floor((hours*60 + time) / 1440 * 24)`; an index
outside the list is the source's IndexError. -/
def solarIter (power price : ℚ) (T : ℤ) (s : SolSt) : SimRes ⊕ SolSt :=
  let inDay : Bool := decide (s.sunriseM ≤ s.minute) && decide (s.minute ≤ s.sunsetM)
  let dm : ℕ := if inDay then s.daylightMin + 1 else s.daylightMin
  if (inDay && decide ((s.minute + 1) % 60 = 0)) || decide (s.minute = s.sunsetM) ||
      (decide ((s.count : ℤ) = T - 1) && inDay) then
    let h1 : ℕ := s.hoursInSun + 1
    let dlHours : ℚ := (s.dl : ℚ) / 60
    let hourIdx : ℤ := ⌊((h1 * 60 + s.time : ℕ) : ℚ) / 1440 * 24⌋
    match s.cc.get? hourIdx.toNat with
    | none => .inl .crash
    | some ccv =>
      let cmh : ℚ := (dm : ℚ) / 60
      let eg : ℚ := s.si * cmh / dlHours * (1 - ccv / 100) * 50 * (2/10)
      let ccost : ℚ := if isPeak s.minute then price / 100 else price / (100 * 2)
      .inr { s with minute := s.minute + 1, count := s.count + 1, hoursInSun := h1,
                    daylightMin := 0,
                    savings := s.savings + (power * cmh - eg) * ccost * s.surch }
  else
    .inr { s with minute := s.minute + 1, count := s.count + 1, daylightMin := dm }

/-- The `while count < time_required` loop of the per-date solar simulation,
with the day-rollover re-derivation of surcharge, solar data and `time`
(calculator.py:673-718); fuel = remaining iterations. -/
def solarLoop (env : Env) (lid : String) (code : ℤ) (power price : ℚ) (T : ℤ) :
    ℕ → SolSt → SimRes
  | 0, s => .val s.savings
  | fuel + 1, s =>
    if s.minute = 1440 then
      match get_date_surcharge env (nextDate s.date) code with
      | .error _ => .crash
      | .ok sf =>
        match env.weatherApi lid (nextDate s.date) with
        | none => .dataFail
        | some sd =>
          let s1 : SolSt :=
            { s with date := nextDate s.date, surch := sf,
                     sunriseM := convert_time_to_minutes_passed sd.sunrise,
                     sunsetM := convert_time_to_minutes_passed sd.sunset,
                     dl := get_date_daylight_hours sd.sunrise sd.sunset,
                     si := sd.sunHours, cc := ccOf sd,
                     minute := 1, time := convert_time_to_minutes_passed sd.sunrise }
          match solarIter power price T s1 with
          | .inl r => r
          | .inr s2 => solarLoop env lid code power price T fuel s2
    else
      match solarIter power price T s with
      | .inl r => r
      | .inr s2 => solarLoop env lid code power price T fuel s2

/-- Proof infrastructure for evaluating long runs of `solarLoop` in bounded
chunks: advance the loop by a given number of iterations, returning either an
early result or the state reached.  The body is the body of `solarLoop`. -/
def solarSteps (env : Env) (lid : String) (code : ℤ) (power price : ℚ) (T : ℤ) :
    ℕ → SolSt → SimRes ⊕ SolSt
  | 0, s => .inr s
  | n + 1, s =>
    if s.minute = 1440 then
      match get_date_surcharge env (nextDate s.date) code with
      | .error _ => .inl .crash
      | .ok sf =>
        match env.weatherApi lid (nextDate s.date) with
        | none => .inl .dataFail
        | some sd =>
          let s1 : SolSt :=
            { s with date := nextDate s.date, surch := sf,
                     sunriseM := convert_time_to_minutes_passed sd.sunrise,
                     sunsetM := convert_time_to_minutes_passed sd.sunset,
                     dl := get_date_daylight_hours sd.sunrise sd.sunset,
                     si := sd.sunHours, cc := ccOf sd,
                     minute := 1, time := convert_time_to_minutes_passed sd.sunrise }
          match solarIter power price T s1 with
          | .inl r => .inl r
          | .inr s2 => solarSteps env lid code power price T n s2
    else
      match solarIter power price T s with
      | .inl r => .inl r
      | .inr s2 => solarSteps env lid code power price T n s2

/-- Running the solar loop for `m + n` iterations is running `n` iterations
and continuing from the reached state (or stopping at an early result). -/
theorem solarLoop_split (env : Env) (lid : String) (code : ℤ) (power price : ℚ)
    (T : ℤ) : ∀ (n m : ℕ) (s : SolSt),
    solarLoop env lid code power price T (m + n) s =
      (match solarSteps env lid code power price T n s with
       | .inl r => r
       | .inr s1 => solarLoop env lid code power price T m s1) := by
  intro n
  induction n with
  | zero => intro m s; rfl
  | succ n ih =>
    intro m s
    show solarLoop env lid code power price T (m + n + 1) s = _
    rw [solarLoop, solarSteps]
    by_cases hm : s.minute = 1440
    · simp only [hm, if_true]
      cases get_date_surcharge env (nextDate s.date) code with
      | error e => rfl
      | ok sf =>
        cases env.weatherApi lid (nextDate s.date) with
        | none => rfl
        | some sd =>
          simp only
          cases solarIter power price T _ with
          | inl r => rfl
          | inr s2 => exact ih m s2
    · simp only [hm, if_false]
      cases solarIter power price T s with
      | inl r => rfl
      | inr s2 => exact ih m s2

/-- One date's pass of the `for date in dates` loop of
`calculate_solar_energy_savings_from_any_date` (calculator.py:643-720):
derive the date's surcharge (a `-1` from an invalid postcode flows on as a
factor, unchecked, as in the source), fetch the date's solar data, then run
the minute loop. -/
def solarSimOneDate (env : Env) (lid : String)
    (initial_state final_state capacity power price : ℚ) (startMin : ℕ) (code : ℤ)
    (d0 : Date) : SimRes :=
  let T : ℤ := pyInt (time_calculation initial_state final_state capacity power)
  match get_date_surcharge env d0 code with
  | .error _ => .crash
  | .ok sf =>
    match env.weatherApi lid d0 with
    | none => .dataFail
    | some sd =>
      solarLoop env lid code power price T T.toNat
        { date := d0, surch := sf,
          sunriseM := convert_time_to_minutes_passed sd.sunrise,
          sunsetM := convert_time_to_minutes_passed sd.sunset,
          dl := get_date_daylight_hours sd.sunrise sd.sunset,
          si := sd.sunHours, cc := ccOf sd,
          minute := startMin, time := startMin, count := 0,
          hoursInSun := 0, daylightMin := 0, savings := 0 }

/-- The dates the solar computation simulates (calculator.py:632-639): the
start date itself when it lies strictly before yesterday, otherwise the
reference date and its two preceding years. -/
def solarDatesFor (today start_date : Date) : List Date :=
  if rd start_date < rd today - 1 then [start_date]
  else get_preceding_dates_for_average (get_reference_date today start_date)

/-- The `for date in dates` loop with its running list of per-date savings
and the final `sum / len` (calculator.py:641-721); a per-date failure aborts
the whole computation exactly as the source's early returns do. -/
def solarRunDates (env : Env) (lid : String)
    (initial_state final_state capacity power price : ℚ) (startMin : ℕ) (code : ℤ) :
    List Date → List ℚ → SimRes
  | [], acc => .val (acc.sum / (acc.length : ℚ))
  | d :: ds, acc =>
    match solarSimOneDate env lid initial_state final_state capacity power price startMin code d with
    | .crash => .crash
    | .dataFail => .dataFail
    | .val q =>
      solarRunDates env lid initial_state final_state capacity power price startMin code ds (acc ++ [q])

/-- Embeds `calculate_solar_energy_savings_from_any_date`
(calculator.py:613-721).  `.ok (-1)` is the sentinel the facade checks:
a failed location lookup or a failed weather lookup; `.error ()` is an
uncaught exception escaping the loop. -/
def calculate_solar_energy_savings_from_any_date (env : Env)
    (initial_state final_state capacity power price : ℚ) (startMin : ℕ)
    (start_date : Date) (code : ℤ) (suburb : String) : Except Unit ℚ :=
  match get_location_id env code suburb with
  | none => .ok (-1)
  | some lid =>
    match solarRunDates env lid initial_state final_state capacity power price startMin code
        (solarDatesFor env.today start_date) [] with
    | .crash => .error ()
    | .dataFail => .ok (-1)
    | .val q => .ok q

/-! ## Facade (`get_charging_cost`, calculator.py:21-65) -/

/-- Observable result of `get_charging_cost`: the `-1` unavailable sentinel,
the "fully offset" message string, or a dollar string rendered with 2 or 4
decimal places. -/
inductive ChargeResult where
  | unavailable
  | offsetMsg
  | price2 (q : ℚ)
  | price4 (q : ℚ)
  deriving DecidableEq, Repr

/-- Embeds `get_charging_cost` (calculator.py:21-65).  Note the source checks
only the solar result for `-1`; a `-1` from `cost_calculation` flows into the
final arithmetic unchecked. -/
def get_charging_cost (env : Env) (initial_state final_state capacity cfg : ℤ)
    (startMin : ℕ) (start_date : Date) (code : ℤ) (suburb : String) :
    Except Unit ChargeResult :=
  let pc := get_power cfg
  match cost_calculation env (initial_state : ℚ) (final_state : ℚ) (capacity : ℚ)
      pc.1 pc.2 startMin start_date code with
  | .error e => .error e
  | .ok total_cost =>
    match calculate_solar_energy_savings_from_any_date env (initial_state : ℚ)
        (final_state : ℚ) (capacity : ℚ) pc.1 pc.2 startMin start_date code suburb with
    | .error e => .error e
    | .ok savings =>
      if savings = -1 then .ok .unavailable
      else
        let final_cost := total_cost - savings
        if total_cost ≤ savings then .ok .offsetMsg
        else if 1 < final_cost then .ok (.price2 (round2 final_cost))
        else .ok (.price4 (round4 final_cost))

/-! ## Spec-side reference-date mapping (claim C4's words) -/

/-- Reference date exactly as claim C4 words it: the nearest already-passed
calendar day with the same day and month (Feb-29 mapped to Feb-28). -/
def nearestPassedSameDayMonth (today d : Date) : Date :=
  let dd := if d.month = 2 ∧ d.day = 29 then 28 else d.day
  if rd ⟨dd, d.month, today.year⟩ < rd today then ⟨dd, d.month, today.year⟩
  else ⟨dd, d.month, today.year - 1⟩

/-! ## Helper lemmas -/

/-- Rounding to 2 decimal places is monotone. -/
theorem round2_mono {x y : ℚ} (h : x ≤ y) : round2 x ≤ round2 y := by
  unfold round2
  have hf : (⌊x * 100 + 1/2⌋ : ℤ) ≤ ⌊y * 100 + 1/2⌋ := Int.floor_mono (by linarith)
  have hc : ((⌊x * 100 + 1/2⌋ : ℤ) : ℚ) ≤ ((⌊y * 100 + 1/2⌋ : ℤ) : ℚ) := by exact_mod_cast hf
  exact div_le_div_of_nonneg_right hc (by norm_num) |>.trans_eq rfl

/-- Rounding to 2 decimal places preserves nonnegativity. -/
theorem round2_nonneg {x : ℚ} (h : 0 ≤ x) : 0 ≤ round2 x := by
  unfold round2
  have hf : (0 : ℤ) ≤ ⌊x * 100 + 1/2⌋ := Int.le_floor.mpr (by push_cast; linarith)
  have hc : (0 : ℚ) ≤ ((⌊x * 100 + 1/2⌋ : ℤ) : ℚ) := by exact_mod_cast hf
  positivity

/-! ## Environments and inputs used by the concrete theorems -/

/-- Term-date environment: NSW term 1 of 2021 (a range containing both
weekdays and weekends), an available but empty public-holiday registry, and
no other providers. -/
def envTermNsw : Env :=
  { termDates := fun st => match st with
      | .nsw => [(⟨27, 1, 2021⟩, ⟨1, 4, 2021⟩)]
      | _ => []
    holidayRecords := some []
    locationApi := fun _ => none
    weatherApi := fun _ _ => none
    today := ⟨12, 10, 2026⟩ }

/-- Same term data as `envTermNsw` but the public-holiday registry request
fails (a non-ok response, `get_date_data_api` returning None). -/
def envRegistryDown : Env :=
  { termDates := fun st => match st with
      | .nsw => [(⟨27, 1, 2021⟩, ⟨1, 4, 2021⟩)]
      | _ => []
    holidayRecords := none
    locationApi := fun _ => none
    weatherApi := fun _ _ => none
    today := ⟨12, 10, 2026⟩ }

/-- Claim C1 (counterexample): on Monday 01/02/2021, a weekday inside the
NSW school term with no public holiday, `get_date_surcharge` returns 1.1,
where the claim requires 1.0 for an ordinary weekday inside term. -/
theorem claim_C1_counterexample :
    jurisdictionOf 2000 = some .nsw ∧
    is_date_weekday ⟨1, 2, 2021⟩ = true ∧
    is_date_in_school_term envTermNsw ⟨1, 2, 2021⟩ .nsw = true ∧
    get_date_data envTermNsw ⟨1, 2, 2021⟩ = some [] ∧
    get_date_surcharge envTermNsw ⟨1, 2, 2021⟩ 2000 = .ok (11/10) ∧
    (11/10 : ℚ) ≠ 1 := by
  refine ⟨by decide, by decide, by decide, rfl, rfl, by norm_num⟩

/-- Claim C1 (amended): for a postcode with a jurisdiction and an available
registry, `get_date_surcharge` returns 1.1 exactly when the date is outside
the jurisdiction's school term, OR is a weekday (regardless of term), OR is
an in-term weekend day listed as a public holiday; it returns 1.0 only for an
in-term weekend day with no holiday. -/
theorem claim_C1 (env : Env) (d : Date) (code : ℤ) (st : AuState)
    (hs : List (ℕ × String)) (hjur : jurisdictionOf code = some st)
    (hreg : env.holidayRecords = some hs) :
    get_date_surcharge env d code =
      .ok (if is_date_in_school_term env d st = false ∨ is_date_weekday d = true ∨
            stateStr st ∈ holidayStates hs d then 11/10 else 1) := by
  unfold get_date_surcharge
  rw [hjur]
  unfold get_date_data
  rw [hreg]
  by_cases hA : is_date_in_school_term env d st
  · by_cases hB : is_date_weekday d
    · simp [hA, hB]
    · by_cases hC : stateStr st ∈ holidayStates hs d
      · simp [hA, hB, hC]
      · simp [hA, hB, hC]
  · simp [hA]

/-- Claim C1 (witness): the amended rule evaluated on Wednesday 03/02/2021,
a weekday inside the NSW term, where the short-circuit yields 1.1. -/
theorem claim_C1_witness :
    get_date_surcharge envTermNsw ⟨3, 2, 2021⟩ 2000 = .ok (11/10) := by
  have h := claim_C1 envTermNsw ⟨3, 2, 2021⟩ 2000 .nsw [] (by decide) rfl
  rw [h]
  norm_num
  decide

/-- Claim C3 (code bug): on Sunday 07/02/2021, a weekend inside the NSW
school term, with the public-holiday registry unavailable, `get_date_data`
returns its `-1` signal but `get_date_surcharge` then evaluates
`state in -1`, raising TypeError — an uncaught exception, not the propagated
signal value the claim (and the source's own `-1` convention) requires. -/
theorem claim_C3 :
    jurisdictionOf 2000 = some .nsw ∧
    is_date_weekday ⟨7, 2, 2021⟩ = false ∧
    is_date_in_school_term envRegistryDown ⟨7, 2, 2021⟩ .nsw = true ∧
    get_date_data envRegistryDown ⟨7, 2, 2021⟩ = none ∧
    get_date_surcharge envRegistryDown ⟨7, 2, 2021⟩ 2000 = .error () := by
  refine ⟨by decide, by decide, by decide, rfl, rfl⟩

/-- Claim C8 (counterexample): Saturday 06/02/2021 lies inside the NSW school
term and is no public holiday; `get_date_surcharge` returns 1.0, where the
claim requires 1.1 for any Saturday or Sunday regardless of term dates. -/
theorem claim_C8_counterexample :
    jurisdictionOf 2000 = some .nsw ∧
    is_date_weekday ⟨6, 2, 2021⟩ = false ∧
    weekdayOf ⟨6, 2, 2021⟩ = 5 ∧
    is_date_in_school_term envTermNsw ⟨6, 2, 2021⟩ .nsw = true ∧
    get_date_data envTermNsw ⟨6, 2, 2021⟩ = some [] ∧
    get_date_surcharge envTermNsw ⟨6, 2, 2021⟩ 2000 = .ok 1 ∧
    (1 : ℚ) ≠ 11/10 := by
  refine ⟨by decide, by decide, by decide, by decide, rfl, rfl, by norm_num⟩

/-- Claim C8 (amended): for a Saturday or Sunday date with a valid
jurisdiction and an available registry, `get_date_surcharge` returns 1.1
exactly when the date is outside the jurisdiction's school term or is a
public holiday there; a weekend day inside term with no holiday gets 1.0. -/
theorem claim_C8 (env : Env) (d : Date) (code : ℤ) (st : AuState)
    (hs : List (ℕ × String)) (hjur : jurisdictionOf code = some st)
    (hreg : env.holidayRecords = some hs) (hwe : is_date_weekday d = false) :
    get_date_surcharge env d code =
      .ok (if is_date_in_school_term env d st = false ∨
            stateStr st ∈ holidayStates hs d then 11/10 else 1) := by
  unfold get_date_surcharge
  rw [hjur]
  unfold get_date_data
  rw [hreg]
  by_cases hA : is_date_in_school_term env d st
  · by_cases hC : stateStr st ∈ holidayStates hs d
    · simp [hA, hwe, hC]
    · simp [hA, hwe, hC]
  · simp [hA]

/-- Claim C8 (witness): the amended rule evaluated on Saturday 10/04/2021,
a weekend outside the NSW term windows, yielding 1.1. -/
theorem claim_C8_witness :
    get_date_surcharge envTermNsw ⟨10, 4, 2021⟩ 2000 = .ok (11/10) := by
  have h := claim_C8 envTermNsw ⟨10, 4, 2021⟩ 2000 .nsw [] (by decide) rfl (by decide)
  rw [h]
  norm_num
  decide

/-- Claim C9: `charging_minutes` (the source's `time_calculation`) equals
`round(((final-initial)/100) * capacity / power * 60, 2)`, is nonnegative on
every valid session, is monotone in the charge delta and in the capacity, and
is antitone in the power. -/
theorem claim_C9 :
    (∀ i f cap power : ℚ,
      time_calculation i f cap power = round2 ((f - i) / 100 * cap / power * 60)) ∧
    (∀ i f cap power : ℚ, i < f → 0 < cap → 0 < power →
      0 ≤ time_calculation i f cap power) ∧
    (∀ i1 f1 i2 f2 cap power : ℚ, 0 < cap → 0 < power → f1 - i1 ≤ f2 - i2 →
      time_calculation i1 f1 cap power ≤ time_calculation i2 f2 cap power) ∧
    (∀ i f c1 c2 power : ℚ, i ≤ f → 0 < power → c1 ≤ c2 →
      time_calculation i f c1 power ≤ time_calculation i f c2 power) ∧
    (∀ i f cap p1 p2 : ℚ, i ≤ f → 0 ≤ cap → 0 < p1 → p1 ≤ p2 →
      time_calculation i f cap p2 ≤ time_calculation i f cap p1) := by
  refine ⟨fun i f cap power => rfl, ?_, ?_, ?_, ?_⟩
  · intro i f cap power hif hcap hpow
    apply round2_nonneg
    have h1 : (0:ℚ) ≤ (f - i) / 100 := by linarith
    have h2 : (0:ℚ) ≤ (f - i) / 100 * cap := mul_nonneg h1 hcap.le
    have h3 : (0:ℚ) ≤ (f - i) / 100 * cap / power := div_nonneg h2 hpow.le
    exact mul_nonneg h3 (by norm_num)
  · intro i1 f1 i2 f2 cap power hcap hpow h
    apply round2_mono
    gcongr
  · intro i f c1 c2 power hif hpow h
    apply round2_mono
    gcongr
    linarith
  · intro i f cap p1 p2 hif hcap hp1 hp
    apply round2_mono
    gcongr
    have h1 : (0:ℚ) ≤ (f - i) / 100 := by linarith
    exact mul_nonneg h1 hcap

/-- Claim C9 (witness): the four guarded parts applied to the spec's
end-to-end example session (20 → 80 %, 60 kWh, 11 kW) and perturbations. -/
theorem claim_C9_witness :
    0 ≤ time_calculation 20 80 60 11 ∧
    time_calculation 20 80 60 11 ≤ time_calculation 20 90 60 11 ∧
    time_calculation 20 80 60 11 ≤ time_calculation 20 80 70 11 ∧
    time_calculation 20 80 60 22 ≤ time_calculation 20 80 60 11 := by
  refine ⟨claim_C9.2.1 20 80 60 11 (by norm_num) (by norm_num) (by norm_num),
          claim_C9.2.2.1 20 80 20 90 60 11 (by norm_num) (by norm_num) (by norm_num),
          claim_C9.2.2.2.1 20 80 60 70 11 (by norm_num) (by norm_num) (by norm_num),
          claim_C9.2.2.2.2 20 80 60 11 22 (by norm_num) (by norm_num) (by norm_num) (by norm_num)⟩

/-- A 24-entry hourly weather history with no cloud cover. -/
def clearHourly : List HourRec := (List.range 24).map fun i => ⟨i, 0⟩

/-- Solar data with sunrise 06:00, sunset 18:00 and the given daily sun
hours, over a clear 24-hour history. -/
def sdWith (sh : ℚ) : SolarData :=
  { sunrise := ⟨6, 0, 0⟩, sunset := ⟨18, 0, 0⟩, sunHours := sh, hourly := clearHourly }

/-- Environment for the mode-selection claims: Melbourne resolves for
postcode 3000, weather history exists for 12 October of 2019-2021 (4 sun
hours) and for 12/10/2026 itself (8 sun hours); today is 12/10/2026. -/
def envSolarMode : Env :=
  { termDates := fun _ => []
    holidayRecords := some []
    locationApi := fun c => if c = 3000 then some [⟨"MELBOURNE", "77"⟩] else none
    weatherApi := fun lid d =>
      if lid = "77" then
        (if d = ⟨12, 10, 2026⟩ then some (sdWith 8)
         else if d = ⟨12, 10, 2021⟩ ∨ d = ⟨12, 10, 2020⟩ ∨ d = ⟨12, 10, 2019⟩ then
           some (sdWith 4)
         else none)
      else none
    today := ⟨12, 10, 2026⟩ }

/-- Environment for the future-date averaging claim: weather history exists
for Christmas of 2019-2021 (4 sun hours, the years the code uses) and of
2023-2025 (8 sun hours, the nearest already-passed years); today is
12/10/2026. -/
def envSolarFuture : Env :=
  { termDates := fun _ => []
    holidayRecords := some []
    locationApi := fun c => if c = 3000 then some [⟨"MELBOURNE", "77"⟩] else none
    weatherApi := fun lid d =>
      if lid = "77" then
        (if d = ⟨25, 12, 2021⟩ ∨ d = ⟨25, 12, 2020⟩ ∨ d = ⟨25, 12, 2019⟩ then some (sdWith 4)
         else if d = ⟨25, 12, 2025⟩ ∨ d = ⟨25, 12, 2024⟩ ∨ d = ⟨25, 12, 2023⟩ then some (sdWith 8)
         else none)
      else none
    today := ⟨12, 10, 2026⟩ }

/-- Single-date path of the solar computation: when the start date lies
strictly before yesterday, the result is the one simulation on the start
date itself. -/
theorem solar_single_date_run (env : Env) (i f cap power price : ℚ) (startMin : ℕ)
    (start : Date) (code : ℤ) (suburb lid : String) (s : ℚ)
    (hlt : rd start < rd env.today - 1)
    (hloc : get_location_id env code suburb = some lid)
    (hsim : solarSimOneDate env lid i f cap power price startMin code start = .val s) :
    calculate_solar_energy_savings_from_any_date env i f cap power price startMin
      start code suburb = .ok s := by
  unfold calculate_solar_energy_savings_from_any_date
  rw [hloc]
  unfold solarDatesFor
  rw [if_pos hlt]
  simp only [solarRunDates, hsim]
  norm_num

/-- Averaging path of the solar computation: otherwise the result is the
arithmetic mean of the three simulations on the reference date and the same
day/month one and two years before it. -/
theorem solar_three_date_run (env : Env) (i f cap power price : ℚ) (startMin : ℕ)
    (start d0 : Date) (code : ℤ) (suburb lid : String) (s0 s1 s2 : ℚ)
    (hmode : ¬ rd start < rd env.today - 1)
    (hloc : get_location_id env code suburb = some lid)
    (hd0 : get_reference_date env.today start = d0)
    (h0 : solarSimOneDate env lid i f cap power price startMin code d0 = .val s0)
    (h1 : solarSimOneDate env lid i f cap power price startMin code
      ⟨d0.day, d0.month, d0.year - 1⟩ = .val s1)
    (h2 : solarSimOneDate env lid i f cap power price startMin code
      ⟨d0.day, d0.month, d0.year - 2⟩ = .val s2) :
    calculate_solar_energy_savings_from_any_date env i f cap power price startMin
      start code suburb = .ok ((s0 + s1 + s2) / 3) := by
  unfold calculate_solar_energy_savings_from_any_date
  rw [hloc]
  unfold solarDatesFor
  rw [if_neg hmode, hd0]
  unfold get_preceding_dates_for_average
  simp only [solarRunDates, h0, h1, h2]
  norm_num
  ring

/-- For a valid start date in the future, `get_reference_date` maps it to
the same day/month in the fixed reference year 2021 when that date precedes
yesterday, else to 2020, with Feb-29 sent to 28/02/2021. -/
theorem get_reference_date_char (today start : Date) (hval : ValidDate start)
    (hfut : rd today < rd start) :
    get_reference_date today start =
      (if start.month = 2 ∧ start.day = 29 then ⟨28, 2, 2021⟩
       else if rd today - 1 ≤ rd ⟨start.day, start.month, 2021⟩ then
         ⟨start.day, start.month, 2020⟩
       else ⟨start.day, start.month, 2021⟩) := by
  unfold get_reference_date
  by_cases hy : start.year = 2021
  · have hc : rd today - 1 ≤ rd start := by omega
    rw [if_pos ⟨hy, hc⟩]
    have hnf : ¬(start.month = 2 ∧ start.day = 29) := by
      rintro ⟨hm, hd29⟩
      rcases hval with ⟨_, _, _, h4⟩
      rw [hm, hy] at h4
      simp [daysInMonth, isLeapYear] at h4
      omega
    rw [if_neg hnf]
    have hstart_eq : (⟨start.day, start.month, 2021⟩ : Date) = start := by
      cases start
      simp_all
    rw [hstart_eq, if_pos hc]
  · rw [if_neg fun h => hy h.1]

/-- Claim C5 (counterexample): with today = 12/10/2026 and start date
12/10/2026 — i.e. start is today, which the claim places in exact-date mode —
the computation returns the three-date average 77/50 over the 2019-2021
histories, not the exact-date simulation value 253/200 of the start date
itself. -/
theorem claim_C5_counterexample :
    rd (⟨12, 10, 2026⟩ : Date) ≤ rd envSolarMode.today ∧
    calculate_solar_energy_savings_from_any_date envSolarMode 0 50 22 22 15 720
      ⟨12, 10, 2026⟩ 3000 "Melbourne" = .ok (77/50) ∧
    solarSimOneDate envSolarMode "77" 0 50 22 22 15 720 3000 ⟨12, 10, 2026⟩ =
      .val (253/200) ∧
    (77/50 : ℚ) ≠ 253/200 := by
  refine ⟨by decide, by with_unfolding_all rfl, by with_unfolding_all rfl, by norm_num⟩

/-- Claim C5 (amended): the solar computation runs the single exact-date
simulation exactly when the start date lies strictly before yesterday
(today − 1 day), and the three-date historical averaging otherwise — so a
start date of today or yesterday, though already occurred, is averaged. -/
theorem claim_C5 :
    (∀ (env : Env) (i f cap power price : ℚ) (startMin : ℕ) (start : Date)
       (code : ℤ) (suburb lid : String) (s : ℚ),
      rd start < rd env.today - 1 →
      get_location_id env code suburb = some lid →
      solarSimOneDate env lid i f cap power price startMin code start = .val s →
      calculate_solar_energy_savings_from_any_date env i f cap power price startMin
        start code suburb = .ok s) ∧
    (∀ (env : Env) (i f cap power price : ℚ) (startMin : ℕ) (start d0 : Date)
       (code : ℤ) (suburb lid : String) (s0 s1 s2 : ℚ),
      ¬ rd start < rd env.today - 1 →
      get_location_id env code suburb = some lid →
      get_reference_date env.today start = d0 →
      solarSimOneDate env lid i f cap power price startMin code d0 = .val s0 →
      solarSimOneDate env lid i f cap power price startMin code
        ⟨d0.day, d0.month, d0.year - 1⟩ = .val s1 →
      solarSimOneDate env lid i f cap power price startMin code
        ⟨d0.day, d0.month, d0.year - 2⟩ = .val s2 →
      calculate_solar_energy_savings_from_any_date env i f cap power price startMin
        start code suburb = .ok ((s0 + s1 + s2) / 3)) :=
  ⟨fun env i f cap power price startMin start code suburb lid s hlt hloc hsim =>
    solar_single_date_run env i f cap power price startMin start code suburb lid s hlt hloc hsim,
   fun env i f cap power price startMin start d0 code suburb lid s0 s1 s2 hmode hloc hd0 h0 h1 h2 =>
    solar_three_date_run env i f cap power price startMin start d0 code suburb lid s0 s1 s2 hmode hloc hd0 h0 h1 h2⟩

/-- Claim C5 (witness): both modes on concrete sessions — a start of
12/10/2021 (before yesterday) runs the single simulation; a start of
12/10/2026 (today) averages the 2021/2020/2019 simulations. -/
theorem claim_C5_witness :
    calculate_solar_energy_savings_from_any_date envSolarMode 0 50 22 22 15 720
      ⟨12, 10, 2021⟩ 3000 "Melbourne" = .ok (77/50) ∧
    calculate_solar_energy_savings_from_any_date envSolarMode 0 50 22 22 15 720
      ⟨12, 10, 2026⟩ 3000 "Melbourne" = .ok ((77/50 + 77/50 + 77/50) / 3) := by
  constructor
  · exact claim_C5.1 envSolarMode 0 50 22 22 15 720 ⟨12, 10, 2021⟩ 3000 "Melbourne" "77"
      (77/50) (by decide) (by with_unfolding_all rfl) (by with_unfolding_all rfl)
  · exact claim_C5.2 envSolarMode 0 50 22 22 15 720 ⟨12, 10, 2026⟩ ⟨12, 10, 2021⟩ 3000
      "Melbourne" "77" (77/50) (77/50) (77/50) (by decide) (by with_unfolding_all rfl)
      (by decide) (by with_unfolding_all rfl) (by with_unfolding_all rfl)
      (by with_unfolding_all rfl)

/-- Claim C4 (counterexample): today is 12/10/2026 and the session starts
25/12/2030.  The nearest already-passed 25 December is 25/12/2025, and the
three simulations the claim prescribes (2025, 2024, 2023) each yield 253/200;
but the code simulates 2021, 2020 and 2019 and returns 77/50. -/
theorem claim_C4_counterexample :
    rd envSolarFuture.today < rd (⟨25, 12, 2030⟩ : Date) ∧
    nearestPassedSameDayMonth envSolarFuture.today ⟨25, 12, 2030⟩ = ⟨25, 12, 2025⟩ ∧
    solarSimOneDate envSolarFuture "77" 0 50 22 22 15 720 3000 ⟨25, 12, 2025⟩ =
      .val (253/200) ∧
    solarSimOneDate envSolarFuture "77" 0 50 22 22 15 720 3000 ⟨25, 12, 2024⟩ =
      .val (253/200) ∧
    solarSimOneDate envSolarFuture "77" 0 50 22 22 15 720 3000 ⟨25, 12, 2023⟩ =
      .val (253/200) ∧
    calculate_solar_energy_savings_from_any_date envSolarFuture 0 50 22 22 15 720
      ⟨25, 12, 2030⟩ 3000 "Melbourne" = .ok (77/50) ∧
    (77/50 : ℚ) ≠ (253/200 + 253/200 + 253/200) / 3 := by
  refine ⟨by decide, by decide, by with_unfolding_all rfl, by with_unfolding_all rfl,
    by with_unfolding_all rfl, by with_unfolding_all rfl, by norm_num⟩

/-- Claim C4 (amended): for a valid future start date, the savings are the
arithmetic mean of exactly three single-date simulations on the reference
date and its one- and two-year predecessors, where the reference date is the
start's day/month in the fixed year 2021 if that 2021 date precedes
yesterday, else in 2020 — not the nearest already-passed year — with Feb-29
mapping to 28/02/2021. -/
theorem claim_C4 (env : Env) (i f cap power price : ℚ) (startMin : ℕ)
    (start d0 : Date) (code : ℤ) (suburb lid : String) (s0 s1 s2 : ℚ)
    (hval : ValidDate start)
    (hfut : rd env.today < rd start)
    (hloc : get_location_id env code suburb = some lid)
    (hd0 : d0 = if start.month = 2 ∧ start.day = 29 then ⟨28, 2, 2021⟩
          else if rd env.today - 1 ≤ rd ⟨start.day, start.month, 2021⟩ then
            ⟨start.day, start.month, 2020⟩
          else ⟨start.day, start.month, 2021⟩)
    (h0 : solarSimOneDate env lid i f cap power price startMin code d0 = .val s0)
    (h1 : solarSimOneDate env lid i f cap power price startMin code
      ⟨d0.day, d0.month, d0.year - 1⟩ = .val s1)
    (h2 : solarSimOneDate env lid i f cap power price startMin code
      ⟨d0.day, d0.month, d0.year - 2⟩ = .val s2) :
    calculate_solar_energy_savings_from_any_date env i f cap power price startMin
      start code suburb = .ok ((s0 + s1 + s2) / 3) := by
  have hmode : ¬ rd start < rd env.today - 1 := by omega
  have href : get_reference_date env.today start = d0 :=
    (get_reference_date_char env.today start hval hfut).trans hd0.symm
  exact solar_three_date_run env i f cap power price startMin start d0 code suburb lid
    s0 s1 s2 hmode hloc href h0 h1 h2

/-- Claim C4 (witness): the amended rule on the concrete future session
starting 25/12/2030 — the reference date is 25/12/2021 and the mean of the
2021/2020/2019 simulations is returned. -/
theorem claim_C4_witness :
    calculate_solar_energy_savings_from_any_date envSolarFuture 0 50 22 22 15 720
      ⟨25, 12, 2030⟩ 3000 "Melbourne" = .ok ((77/50 + 77/50 + 77/50) / 3) :=
  claim_C4 envSolarFuture 0 50 22 22 15 720 ⟨25, 12, 2030⟩ ⟨25, 12, 2021⟩ 3000
    "Melbourne" "77" (77/50) (77/50) (77/50) (by decide) (by decide)
    (by with_unfolding_all rfl) (by decide) (by with_unfolding_all rfl)
    (by with_unfolding_all rfl) (by with_unfolding_all rfl)

/-- Environment for the failure-propagation claim: postcode 1000 resolves at
the location API (Sydney) and weather exists, but 1000 maps to no
jurisdiction in the calculator's postcode dispatch. -/
def envNoJurisdiction : Env :=
  { termDates := fun _ => []
    holidayRecords := some []
    locationApi := fun c => if c = 1000 then some [⟨"SYDNEY", "100"⟩] else none
    weatherApi := fun lid _ => if lid = "100" then some (sdWith 8) else none
    today := ⟨12, 10, 2026⟩ }

/-- Claim C2 (code bug): for postcode 1000, which maps to no jurisdiction,
`cost_calculation` duly returns its `-1` sentinel — but `get_charging_cost`
never checks it.  With the solar path succeeding (savings 0), the facade
compares 0 ≥ -1 and returns the "fully offset" message, a normal-looking
result, instead of the single unavailable sentinel the claim requires. -/
theorem claim_C2 :
    jurisdictionOf 1000 = none ∧
    cost_calculation envNoJurisdiction 0 50 2 90 30 0 ⟨1, 10, 2026⟩ 1000 = .ok (-1) ∧
    calculate_solar_energy_savings_from_any_date envNoJurisdiction 0 50 2 90 30 0
      ⟨1, 10, 2026⟩ 1000 "Sydney" = .ok 0 ∧
    get_charging_cost envNoJurisdiction 0 50 2 7 0 ⟨1, 10, 2026⟩ 1000 "Sydney" =
      .ok .offsetMsg ∧
    (Except.ok ChargeResult.offsetMsg : Except Unit ChargeResult) ≠ .ok .unavailable := by
  refine ⟨by decide, by with_unfolding_all rfl, by with_unfolding_all rfl,
    by with_unfolding_all rfl, ?_⟩
  intro h
  injection h with h2
  exact ChargeResult.noConfusion h2

/-- Claim C7: whenever the billed cost and the solar savings both compute
(and the savings are not the -1 sentinel), the facade returns the distinct
"fully offset" message exactly when savings ≥ cost, and otherwise renders the
net amount with 2 decimal places when it exceeds 1 dollar and 4 decimal
places when it does not. -/
theorem claim_C7 (env : Env) (initial_state final_state capacity cfg : ℤ)
    (startMin : ℕ) (start_date : Date) (code : ℤ) (suburb : String)
    (power price c s : ℚ)
    (hpw : get_power cfg = (power, price))
    (hc : cost_calculation env (initial_state : ℚ) (final_state : ℚ) (capacity : ℚ)
      power price startMin start_date code = .ok c)
    (hs : calculate_solar_energy_savings_from_any_date env (initial_state : ℚ)
      (final_state : ℚ) (capacity : ℚ) power price startMin start_date code suburb = .ok s)
    (hne : s ≠ -1) :
    get_charging_cost env initial_state final_state capacity cfg startMin start_date
      code suburb =
      .ok (if c ≤ s then .offsetMsg
           else if 1 < c - s then .price2 (round2 (c - s))
           else .price4 (round4 (c - s))) := by
  unfold get_charging_cost
  simp only [hpw, hc, hs, if_neg hne]
  split_ifs <;> rfl

/-- Claim C7 (witness): the formatting rule on a concrete session (cost
91/50, savings 77/50): the net 7/25 of a dollar is rendered with 4 decimal
places. -/
theorem claim_C7_witness :
    get_charging_cost envSolarMode 0 50 22 5 720 ⟨12, 10, 2021⟩ 3000 "Melbourne" =
      .ok (.price4 (7/25)) := by
  rw [claim_C7 envSolarMode 0 50 22 5 720 ⟨12, 10, 2021⟩ 3000 "Melbourne" 22 15
    (91/50) (77/50) rfl (by with_unfolding_all rfl) (by with_unfolding_all rfl)
    (by norm_num)]
  with_unfolding_all rfl

/-- The rollover step of the source billing loop and of the spec-side fold
agree (same date advance, same surcharge re-derivation, same failure), and
the rollover never lands on a peak minute it did not start from (it resets
to minute 1). -/
theorem rollover_rel (env : Env) (code : ℤ) (s : CostSt) :
    (∃ e, rolloverCost env code s = .error e ∧
      rolloverBill env code ⟨s.minute, s.date, s.surch, s.acc⟩ = .error e) ∨
    (∃ s1, rolloverCost env code s = .ok s1 ∧
      rolloverBill env code ⟨s.minute, s.date, s.surch, s.acc⟩ =
        .ok ⟨s1.minute, s1.date, s1.surch, s1.acc⟩ ∧
      s1.cost = s.cost ∧ s1.costVal = s.costVal ∧
      (isPeak s1.minute = true → isPeak s.minute = true)) := by
  unfold rolloverCost rolloverBill
  by_cases hm : s.minute = 1440
  · simp only [hm, if_true]
    cases hsur : get_date_surcharge env (nextDate s.date) code with
    | error e => exact .inl ⟨e, rfl, rfl⟩
    | ok sf =>
      refine .inr ⟨{ s with minute := 1, date := nextDate s.date, surch := sf },
        rfl, rfl, rfl, rfl, ?_⟩
      intro h
      exact absurd (show isPeak 1 = true from h) (by decide)
  · simp only [hm, if_false]
    exact .inr ⟨s, rfl, rfl, rfl, rfl, fun h => h⟩

/-- Invariant-carrying equivalence of the source billing loop with the
spec-side fold: as long as the `cost` variable holds the base per-minute
price and `cost_val` holds it on peak minutes, every minute is billed at the
base price inside the peak window and half of it outside, with no compounded
halving across transitions. -/
theorem costLoop_eq_billLoopSpec (env : Env) (code : ℤ) (i f cap pm : ℚ) :
    ∀ (fuel : ℕ) (s : CostSt), s.cost = pm → (isPeak s.minute = true → s.costVal = pm) →
    costLoop env code i f cap pm fuel s =
      billLoopSpec env code i f cap pm fuel ⟨s.minute, s.date, s.surch, s.acc⟩ := by
  intro fuel
  induction fuel with
  | zero => intro s _ _; rfl
  | succ fuel ih =>
    intro s hcost hpk
    rw [costLoop, billLoopSpec]
    rcases rollover_rel env code s with ⟨e, h1, h2⟩ | ⟨s1, h1, h2, hc1, hv1, hpk1⟩
    · rw [h1, h2]
    · rw [h1, h2]
      dsimp only
      have hc1pm : s1.cost = pm := hc1.trans hcost
      cases hp1 : isPeak s1.minute with
      | true =>
        have hval : s1.costVal = pm := hv1.trans (hpk (hpk1 hp1))
        cases hp2 : isPeak (s1.minute + 1) with
        | true =>
          simp only [hp1, hp2, hval, hc1pm, Bool.not_true, Bool.and_false, Bool.false_and,
            Bool.not_false, Bool.true_and, if_true, if_false, Bool.false_eq_true]
          exact ih _ rfl (fun _ => rfl)
        | false =>
          simp only [hp1, hp2, hval, hc1pm, Bool.not_true, Bool.and_false, Bool.false_and,
            Bool.not_false, Bool.true_and, if_true, if_false, Bool.false_eq_true]
          exact ih _ rfl (fun h => by rw [hp2] at h; exact absurd h (by decide))
      | false =>
        cases hp2 : isPeak (s1.minute + 1) with
        | true =>
          simp only [hp1, hp2, hc1pm, Bool.not_false, Bool.and_true, Bool.true_and,
            Bool.not_true, Bool.and_false, Bool.false_and, if_true, if_false,
            Bool.false_eq_true]
          exact ih _ rfl (fun _ => rfl)
        | false =>
          simp only [hp1, hp2, hc1pm, Bool.not_false, Bool.and_true, Bool.true_and,
            Bool.not_true, Bool.and_false, Bool.false_and, if_true, if_false,
            Bool.false_eq_true]
          exact ih _ rfl (fun h => by rw [hp2] at h; exact absurd h (by decide))

/-- Claim C6: the billing computation equals its spec-side restatement: in
every simulated minute of every session the effective per-minute price is
`base_price / (charging_minutes + 1) / 100` inside the peak window [360,1080)
and exactly half that value outside it, however many peak-window boundaries
and midnights the session crosses — the halving never compounds. -/
theorem claim_C6 (env : Env) (initial_state final_state capacity power base_price : ℚ)
    (startMin : ℕ) (start_date : Date) (code : ℤ) :
    cost_calculation env initial_state final_state capacity power base_price
      startMin start_date code =
    cost_calculation_spec env initial_state final_state capacity power base_price
      startMin start_date code := by
  unfold cost_calculation cost_calculation_spec
  cases hsur : get_date_surcharge env start_date code with
  | error e => rfl
  | ok sf =>
    by_cases hsf : sf = -1
    · simp only [if_pos hsf]
    · simp only [if_neg hsf]
      exact costLoop_eq_billLoopSpec env code initial_state final_state capacity _ _
        ⟨startMin, start_date, sf, _, _, 0⟩ rfl (fun _ => rfl)

/-- Environment for the multi-day safety claim: Melbourne resolves for
postcode 3000 and every date has the same winter history — sunrise 06:00,
sunset 18:00, a 24-entry hourly record; today is 12/10/2026. -/
def envMultiDay : Env :=
  { termDates := fun _ => []
    holidayRecords := some []
    locationApi := fun c => if c = 3000 then some [⟨"MELBOURNE", "77"⟩] else none
    weatherApi := fun lid _ => if lid = "77" then some (sdWith 8) else none
    today := ⟨12, 10, 2026⟩ }

/-- Initial loop state of the 35-hour session of claim C10 (start 23:59 on
01/06/2026, 2100 charging minutes). -/
def c10s0 : SolSt :=
  ⟨⟨1, 6, 2026⟩, 11/10, 360, 1080, 720, 8, ccOf (sdWith 8), 1439, 1439, 0, 0, 0, 0⟩

/-- The session state after 500 simulated minutes (day 2, minute 500). -/
def c10s1 : SolSt :=
  ⟨⟨2, 6, 2026⟩, 11/10, 360, 1080, 720, 8, ccOf (sdWith 8), 500, 360, 500, 2, 20, -77/150⟩

/-- The session state after 1000 simulated minutes (day 2, minute 1000). -/
def c10s2 : SolSt :=
  ⟨⟨2, 6, 2026⟩, 11/10, 360, 1080, 720, 8, ccOf (sdWith 8), 1000, 360, 1000, 10, 40, -77/30⟩

/-- The session state after 1500 simulated minutes (day 3, minute 61,
with 13 close-outs already accumulated in charging_hours_spent_in_sunlight). -/
def c10s3 : SolSt :=
  ⟨⟨3, 6, 2026⟩, 11/10, 360, 1080, 720, 8, ccOf (sdWith 8), 61, 360, 1500, 13, 0, -110957/36000⟩

/-- The session state after 2000 simulated minutes (day 3, minute 561,
16 close-outs accumulated). -/
def c10s4 : SolSt :=
  ⟨⟨3, 6, 2026⟩, 11/10, 360, 1080, 720, 8, ccOf (sdWith 8), 561, 360, 2000, 16, 21, -138677/36000⟩

/-- Claim C10 (code bug): a session of 2100 charging minutes starting 23:59
on 01/06/2026 (0→100 % of 70 kWh at 2 kW) spans three calendar days; since
charging_hours_spent_in_sunlight is never reset at a rollover, the 18th
close-out (the 5th daylight hour of day 3) computes hour index
18 + 360/60 = 24 into the 24-entry cloud-cover list and the access fails —
the simulation crashes with IndexError instead of staying within 0..23. -/
theorem claim_C10 :
    pyInt (time_calculation 0 100 70 2) = 2100 ∧
    (ccOf (sdWith 8)).length = 24 ∧
    solarSimOneDate envMultiDay "77" 0 100 70 2 5 1439 3000 ⟨1, 6, 2026⟩ = .crash := by
  refine ⟨by with_unfolding_all rfl, by decide, ?_⟩
  have h0 : solarSimOneDate envMultiDay "77" 0 100 70 2 5 1439 3000 ⟨1, 6, 2026⟩ =
      solarLoop envMultiDay "77" 3000 2 5 2100 2100 c10s0 := by
    with_unfolding_all rfl
  have h1 : solarSteps envMultiDay "77" 3000 2 5 2100 500 c10s0 = .inr c10s1 := by
    with_unfolding_all rfl
  have h2 : solarSteps envMultiDay "77" 3000 2 5 2100 500 c10s1 = .inr c10s2 := by
    with_unfolding_all rfl
  have h3 : solarSteps envMultiDay "77" 3000 2 5 2100 500 c10s2 = .inr c10s3 := by
    with_unfolding_all rfl
  have h4 : solarSteps envMultiDay "77" 3000 2 5 2100 500 c10s3 = .inr c10s4 := by
    with_unfolding_all rfl
  have h5 : solarSteps envMultiDay "77" 3000 2 5 2100 100 c10s4 = .inl .crash := by
    with_unfolding_all rfl
  have l1 := solarLoop_split envMultiDay "77" 3000 2 5 2100 500 1600 c10s0
  rw [h1] at l1
  have l2 := solarLoop_split envMultiDay "77" 3000 2 5 2100 500 1100 c10s1
  rw [h2] at l2
  have l3 := solarLoop_split envMultiDay "77" 3000 2 5 2100 500 600 c10s2
  rw [h3] at l3
  have l4 := solarLoop_split envMultiDay "77" 3000 2 5 2100 500 100 c10s3
  rw [h4] at l4
  have l5 := solarLoop_split envMultiDay "77" 3000 2 5 2100 100 0 c10s4
  rw [h5] at l5
  rw [h0]
  exact l1.trans (l2.trans (l3.trans (l4.trans l5)))
